import Mathlib

/-!
Verification of the CSS selector builder (and the small `Rectangle` helper)
from `src/06-objects-tasks.js`.

The source defines six constructor functions `Element`, `Id`, `Class`,
`Attr`, `PseudoClass`, `PseudoElement`.  Each installs the same six append
methods (`element`, `id`, `class`, `attr`, `pseudoClass`, `pseudoElement`)
with textually identical bodies; only the initial field values of the
constructed object differ.  We therefore embed the mutable object state as
the structure `Builder`, the shared method bodies once each as functions
`elementM`, `idM`, `classM`, `attrM`, `pseudoClassM`, `pseudoElementM`,
and the six constructors as functions producing the seeded initial state.

A JS method both mutates `this` and may throw; the thrown-at object keeps
every mutation performed before the `throw`.  A call is therefore embedded
as `Builder → String → CallResult`, where `CallResult.err e b` records the
error together with the state of the object at the moment of the throw
(the state the caller keeps holding), and `CallResult.ok b` the state after
a successful append.
-/

namespace ObjectsTasks

/-- The object returned by `Rectangle(width, height)`: two number fields
and a `getArea()` method computing their product. -/
structure RectangleObj where
  width : Int
  height : Int
deriving DecidableEq, Repr

/-- The `getArea()` method: `this.width * this.height`. -/
def RectangleObj.getArea (r : RectangleObj) : Int := r.width * r.height

/-- Function `Rectangle(width, height)` from the source. -/
def Rectangle (width height : Int) : RectangleObj :=
  { width := width, height := height }

/-- Canonical kind order: the `ORDER` array from the source. -/
def ORDER : List String :=
  ["element", "id", "class", "attribute", "pseudoClass", "pseudoElement"]

/-- JavaScript `Array.prototype.indexOf` on a list of strings: the index of
the first occurrence, or `-1` when the key does not occur. -/
def jsIndexOf : List String → String → Int
  | [], _ => -1
  | x :: xs, k =>
    if x = k then 0
    else if jsIndexOf xs k = -1 then -1 else jsIndexOf xs k + 1

/-- Variant of `indexOf` applied to a possibly-`null` argument (`prevSelector` starts
as `null`); `indexOf(null)` is `-1`. -/
def jsIndexOfN (l : List String) : Option String → Int
  | none => -1
  | some k => jsIndexOf l k

/-- The mutable fields shared by all six selector constructors. -/
structure Builder where
  selectors : String
  currentSelector : String
  prevSelector : Option String
  elementCount : Nat
  idCount : Nat
  pseudoElemCount : Nat
deriving DecidableEq, Repr

/-- Message of the duplicate-fragment error, verbatim from the source. -/
def dupMsg : String :=
  "Element, id and pseudo-element should not occur more then one time inside the selector"

/-- Message of the sequence-order error, verbatim from the source. -/
def orderMsg : String :=
  "Selector parts should be arranged in the following order: element, id, class, attribute, pseudo-class, pseudo-element"

/-- The two throw sites of the source, each carrying its message string. -/
inductive SelErr where
  | duplicateFragment (message : String)
  | sequenceOrder (message : String)
deriving DecidableEq, Repr

/-- Result of one append call: success, or an error together with the state
of the builder object at the moment of the throw. -/
inductive CallResult where
  | ok (b : Builder)
  | err (e : SelErr) (b : Builder)
deriving DecidableEq, Repr

/-- The state of the builder object after the call, whether or not the call
threw (a JS object keeps the mutations performed before a throw). -/
def after : CallResult → Builder
  | .ok b => b
  | .err _ b => b

/-- True when the call returned normally. -/
def isOk : CallResult → Bool
  | .ok _ => true
  | .err _ _ => false

/-- True when the call threw. -/
def isErr : CallResult → Bool
  | .ok _ => false
  | .err _ _ => true

/-- The message of the thrown error, when the call threw. -/
def errMessage : CallResult → Option String
  | .ok _ => none
  | .err (.duplicateFragment m) _ => some m
  | .err (.sequenceOrder m) _ => some m

/-- The `element` method (identical body in all six source constructors):
duplicate check on `elementCount`, then the mutation of
`prevSelector`/`currentSelector`, then the ordering check, then the append.
Note the source never increments `elementCount`. -/
def elementM (b : Builder) (value : String) : CallResult :=
  if b.elementCount > 0 then
    .err (.duplicateFragment dupMsg) b
  else
    let b1 : Builder :=
      { b with prevSelector := some b.currentSelector, currentSelector := "element" }
    if jsIndexOfN ORDER b1.prevSelector > jsIndexOf ORDER b1.currentSelector then
      .err (.sequenceOrder orderMsg) b1
    else
      .ok { b1 with selectors := b1.selectors ++ value }

/-- The `id` method: duplicate check on `idCount`, mutation, ordering check,
append of `#value`, increment of `idCount`. -/
def idM (b : Builder) (value : String) : CallResult :=
  if b.idCount > 0 then
    .err (.duplicateFragment dupMsg) b
  else
    let b1 : Builder :=
      { b with prevSelector := some b.currentSelector, currentSelector := "id" }
    if jsIndexOfN ORDER b1.prevSelector > jsIndexOf ORDER b1.currentSelector then
      .err (.sequenceOrder orderMsg) b1
    else
      .ok { b1 with selectors := b1.selectors ++ "#" ++ value, idCount := b1.idCount + 1 }

/-- The `class` method: mutation, ordering check, append of `.value`. -/
def classM (b : Builder) (value : String) : CallResult :=
  let b1 : Builder :=
    { b with prevSelector := some b.currentSelector, currentSelector := "class" }
  if jsIndexOfN ORDER b1.prevSelector > jsIndexOf ORDER b1.currentSelector then
    .err (.sequenceOrder orderMsg) b1
  else
    .ok { b1 with selectors := b1.selectors ++ "." ++ value }

/-- The `attr` method: mutation, ordering check, append of `[value]`. -/
def attrM (b : Builder) (value : String) : CallResult :=
  let b1 : Builder :=
    { b with prevSelector := some b.currentSelector, currentSelector := "attribute" }
  if jsIndexOfN ORDER b1.prevSelector > jsIndexOf ORDER b1.currentSelector then
    .err (.sequenceOrder orderMsg) b1
  else
    .ok { b1 with selectors := b1.selectors ++ "[" ++ value ++ "]" }

/-- The `pseudoClass` method: mutation, ordering check, append of `:value`. -/
def pseudoClassM (b : Builder) (value : String) : CallResult :=
  let b1 : Builder :=
    { b with prevSelector := some b.currentSelector, currentSelector := "pseudoClass" }
  if jsIndexOfN ORDER b1.prevSelector > jsIndexOf ORDER b1.currentSelector then
    .err (.sequenceOrder orderMsg) b1
  else
    .ok { b1 with selectors := b1.selectors ++ ":" ++ value }

/-- The `pseudoElement` method: mutation, then the ordering check, then the
duplicate check on `pseudoElemCount` (in the source this duplicate check
comes after the ordering check, unlike `element` and `id`), then the
append of `::value` and the increment. -/
def pseudoElementM (b : Builder) (value : String) : CallResult :=
  let b1 : Builder :=
    { b with prevSelector := some b.currentSelector, currentSelector := "pseudoElement" }
  if jsIndexOfN ORDER b1.prevSelector > jsIndexOf ORDER b1.currentSelector then
    .err (.sequenceOrder orderMsg) b1
  else if b1.pseudoElemCount > 0 then
    .err (.duplicateFragment dupMsg) b1
  else
    .ok { b1 with pseudoElemCount := b1.pseudoElemCount + 1,
                  selectors := b1.selectors ++ "::" ++ value }

/-- The `stringify` method: returns the accumulated text. -/
def Builder.stringify (b : Builder) : String := b.selectors

/-- Constructor `Element(name)`: initial field values from the source. -/
def Element (name : String) : Builder :=
  { selectors := name, currentSelector := "element", prevSelector := none,
    elementCount := 1, idCount := 0, pseudoElemCount := 0 }

/-- Constructor `Id(name)`. -/
def Id (name : String) : Builder :=
  { selectors := "#" ++ name, currentSelector := "id", prevSelector := none,
    elementCount := 0, idCount := 1, pseudoElemCount := 0 }

/-- Constructor `Class(name)`. -/
def Class (name : String) : Builder :=
  { selectors := "." ++ name, currentSelector := "class", prevSelector := none,
    elementCount := 0, idCount := 0, pseudoElemCount := 0 }

/-- Constructor `Attr(name)`. -/
def Attr (name : String) : Builder :=
  { selectors := "[" ++ name ++ "]", currentSelector := "attribute", prevSelector := none,
    elementCount := 0, idCount := 0, pseudoElemCount := 0 }

/-- Constructor `PseudoClass(name)`. -/
def PseudoClass (name : String) : Builder :=
  { selectors := ":" ++ name, currentSelector := "pseudoClass", prevSelector := none,
    elementCount := 0, idCount := 0, pseudoElemCount := 0 }

/-- Constructor `PseudoElement(name)`: note `pseudoElemCount` starts at 1. -/
def PseudoElement (name : String) : Builder :=
  { selectors := "::" ++ name, currentSelector := "pseudoElement", prevSelector := none,
    elementCount := 0, idCount := 0, pseudoElemCount := 1 }

/-- A stringifiable selector value: a builder, or the result of `combine`
(class `Combine` stores only the eagerly rendered string). -/
inductive Selector where
  | builder (b : Builder)
  | combined (string : String)
deriving DecidableEq, Repr

/-- Method `stringify()` on either selector form. -/
def Selector.stringify : Selector → String
  | .builder b => b.stringify
  | .combined s => s

/-- Function `combine(selector1, combinator, selector2)`: builds a `Combine` whose
stored string is the eager template
`` `${selector1.stringify()} ${combinator} ${selector2.stringify()}` ``. -/
def combine (selector1 : Selector) (combinator : String) (selector2 : Selector) : Selector :=
  .combined (selector1.stringify ++ " " ++ combinator ++ " " ++ selector2.stringify)

namespace cssSelectorBuilder

/-- Facade entry point `cssSelectorBuilder.element`. -/
def element (value : String) : Builder := Element value

/-- Facade entry point `cssSelectorBuilder.id`. -/
def id (value : String) : Builder := Id value

/-- Facade entry point `cssSelectorBuilder.class`. -/
def classE (value : String) : Builder := Class value

/-- Facade entry point `cssSelectorBuilder.attr`. -/
def attr (value : String) : Builder := Attr value

/-- Facade entry point `cssSelectorBuilder.pseudoClass`. -/
def pseudoClass (value : String) : Builder := PseudoClass value

/-- Facade entry point `cssSelectorBuilder.pseudoElement`. -/
def pseudoElement (value : String) : Builder := PseudoElement value

end cssSelectorBuilder

/-- One append call, as made from outside: the method together with its
argument string. -/
inductive Call where
  | element (value : String)
  | id (value : String)
  | cls (value : String)
  | attr (value : String)
  | pseudoClass (value : String)
  | pseudoElement (value : String)
deriving DecidableEq, Repr

/-- The kind string the call writes into `currentSelector`. -/
def Call.kindName : Call → String
  | .element _ => "element"
  | .id _ => "id"
  | .cls _ => "class"
  | .attr _ => "attribute"
  | .pseudoClass _ => "pseudoClass"
  | .pseudoElement _ => "pseudoElement"

/-- The canonical rendering of the fragment the call appends. -/
def Call.render : Call → String
  | .element v => v
  | .id v => "#" ++ v
  | .cls v => "." ++ v
  | .attr v => "[" ++ v ++ "]"
  | .pseudoClass v => ":" ++ v
  | .pseudoElement v => "::" ++ v

/-- The rank of the call's kind in the canonical order. -/
def Call.rank : Call → Nat
  | .element _ => 0
  | .id _ => 1
  | .cls _ => 2
  | .attr _ => 3
  | .pseudoClass _ => 4
  | .pseudoElement _ => 5

/-- Whether the call's kind is one of the three capped kinds. -/
def Call.isCapped : Call → Bool
  | .element _ => true
  | .id _ => true
  | .pseudoElement _ => true
  | _ => false

/-- Dispatch a call to the corresponding method. -/
def applyCall (b : Builder) : Call → CallResult
  | .element v => elementM b v
  | .id v => idM b v
  | .cls v => classM b v
  | .attr v => attrM b v
  | .pseudoClass v => pseudoClassM b v
  | .pseudoElement v => pseudoElementM b v

/-- The facade entry point corresponding to a call kind (the seed). -/
def entry : Call → Builder
  | .element v => cssSelectorBuilder.element v
  | .id v => cssSelectorBuilder.id v
  | .cls v => cssSelectorBuilder.classE v
  | .attr v => cssSelectorBuilder.attr v
  | .pseudoClass v => cssSelectorBuilder.pseudoClass v
  | .pseudoElement v => cssSelectorBuilder.pseudoElement v

/-- The counter consulted by the duplicate check of the call's method
(`0` for the three uncapped kinds, whose methods have no duplicate check). -/
def dupCount (b : Builder) : Call → Nat
  | .element _ => b.elementCount
  | .id _ => b.idCount
  | .pseudoElement _ => b.pseudoElemCount
  | _ => 0

/-- Run a list of calls in order; `none` as soon as one throws. -/
def runCalls (b : Builder) : List Call → Option Builder
  | [] => some b
  | c :: cs =>
    match applyCall b c with
    | .ok b1 => runCalls b1 cs
    | .err _ _ => none

/-- The ranks of consecutive calls are non-decreasing. -/
def ranksOk : List Call → Bool
  | c :: c1 :: cs => decide (c.rank ≤ c1.rank) && ranksOk (c1 :: cs)
  | _ => true

/-- Number of element-kind calls in a list. -/
def countEl (cs : List Call) : Nat := cs.countP fun c => c.rank == 0

/-- Number of id-kind calls in a list. -/
def countId (cs : List Call) : Nat := cs.countP fun c => c.rank == 1

/-- Number of pseudoElement-kind calls in a list. -/
def countPe (cs : List Call) : Nat := cs.countP fun c => c.rank == 5

/-- Concatenation of the canonical renderings of a list of calls. -/
def renderAll : List Call → String
  | [] => ""
  | c :: cs => c.render ++ renderAll cs


/-- Builder state after a successful append of call `c` on state `b`. -/
def stepOk (b : Builder) (c : Call) : Builder :=
  let b1 : Builder :=
    { b with prevSelector := some b.currentSelector, currentSelector := c.kindName,
             selectors := b.selectors ++ c.render }
  match c with
  | .id _ => { b1 with idCount := b1.idCount + 1 }
  | .pseudoElement _ => { b1 with pseudoElemCount := b1.pseudoElemCount + 1 }
  | _ => b1

/-- The first call of the list, if any, has rank at least the rank index
recorded in the builder's `currentSelector`. -/
def headRankOk (b : Builder) : List Call → Prop
  | [] => True
  | c :: _ => jsIndexOf ORDER b.currentSelector ≤ (c.rank : Int)

theorem jsIndexOf_lt_length (l : List String) (k : String) : jsIndexOf l k < l.length := by
  induction l with
  | nil => simp [jsIndexOf]
  | cons x xs ih =>
    simp only [jsIndexOf, List.length_cons]
    split
    · omega
    · split
      · omega
      · push_cast
        omega

theorem jsIndexOf_ORDER_le (k : String) : jsIndexOf ORDER k ≤ 5 := by
  have h := jsIndexOf_lt_length ORDER k
  have hl : ORDER.length = 6 := rfl
  omega

theorem jsIndexOf_kindName (c : Call) : jsIndexOf ORDER c.kindName = (c.rank : Int) := by
  cases c <;> simp only [Call.kindName, Call.rank] <;> decide

theorem applyCall_ok (b : Builder) (c : Call)
    (hdup : dupCount b c = 0)
    (hord : jsIndexOf ORDER b.currentSelector ≤ (c.rank : Int)) :
    applyCall b c = .ok (stepOk b c) := by
  cases c with
  | element v =>
    have h0 : jsIndexOf ORDER "element" = (0 : Int) := by decide
    simp only [applyCall, elementM, jsIndexOfN, dupCount, Call.rank, Nat.cast_zero] at *
    rw [if_neg (by omega), if_neg (by omega)]
    simp [stepOk, Call.kindName, Call.render]
  | id v =>
    have h0 : jsIndexOf ORDER "id" = (1 : Int) := by decide
    simp only [applyCall, idM, jsIndexOfN, dupCount, Call.rank, Nat.cast_one] at *
    rw [if_neg (by omega), if_neg (by omega)]
    simp [stepOk, Call.kindName, Call.render, String.append_assoc]
  | cls v =>
    have h0 : jsIndexOf ORDER "class" = (2 : Int) := by decide
    simp only [applyCall, classM, jsIndexOfN, Call.rank] at *
    rw [if_neg (by omega)]
    simp [stepOk, Call.kindName, Call.render, String.append_assoc]
  | attr v =>
    have h0 : jsIndexOf ORDER "attribute" = (3 : Int) := by decide
    simp only [applyCall, attrM, jsIndexOfN, Call.rank] at *
    rw [if_neg (by omega)]
    simp [stepOk, Call.kindName, Call.render, String.append_assoc]
  | pseudoClass v =>
    have h0 : jsIndexOf ORDER "pseudoClass" = (4 : Int) := by decide
    simp only [applyCall, pseudoClassM, jsIndexOfN, Call.rank] at *
    rw [if_neg (by omega)]
    simp [stepOk, Call.kindName, Call.render, String.append_assoc]
  | pseudoElement v =>
    have h0 : jsIndexOf ORDER "pseudoElement" = (5 : Int) := by decide
    simp only [applyCall, pseudoElementM, jsIndexOfN, dupCount, Call.rank] at *
    rw [if_neg (by omega), if_neg (by omega)]
    simp [stepOk, Call.kindName, Call.render, String.append_assoc]


theorem stepOk_selectors (b : Builder) (c : Call) :
    (stepOk b c).selectors = b.selectors ++ c.render := by cases c <;> rfl

theorem stepOk_currentSelector (b : Builder) (c : Call) :
    (stepOk b c).currentSelector = c.kindName := by cases c <;> rfl

theorem stepOk_elementCount (b : Builder) (c : Call) :
    (stepOk b c).elementCount = b.elementCount := by cases c <;> rfl

theorem stepOk_idCount (b : Builder) (c : Call) :
    (stepOk b c).idCount = b.idCount + (if c.rank = 1 then 1 else 0) := by
  cases c <;> simp [stepOk, Call.rank]

theorem stepOk_pseudoElemCount (b : Builder) (c : Call) :
    (stepOk b c).pseudoElemCount = b.pseudoElemCount + (if c.rank = 5 then 1 else 0) := by
  cases c <;> simp [stepOk, Call.rank]

theorem countEl_cons (c : Call) (cs : List Call) :
    countEl (c :: cs) = countEl cs + (if c.rank = 0 then 1 else 0) := by
  simp [countEl, List.countP_cons]

theorem countId_cons (c : Call) (cs : List Call) :
    countId (c :: cs) = countId cs + (if c.rank = 1 then 1 else 0) := by
  simp [countId, List.countP_cons]

theorem countPe_cons (c : Call) (cs : List Call) :
    countPe (c :: cs) = countPe cs + (if c.rank = 5 then 1 else 0) := by
  simp [countPe, List.countP_cons]

theorem runCalls_total (cs : List Call) : ∀ b : Builder,
    ranksOk cs = true →
    headRankOk b cs →
    countEl cs + b.elementCount ≤ 1 →
    countId cs + b.idCount ≤ 1 →
    countPe cs + b.pseudoElemCount ≤ 1 →
    ∃ b1, runCalls b cs = some b1 ∧ b1.selectors = b.selectors ++ renderAll cs := by
  induction cs with
  | nil =>
    intro b _ _ _ _ _
    exact ⟨b, rfl, by simp [renderAll]⟩
  | cons c cs ih =>
    intro b hranks hhd hel hid hpe
    have hdup : dupCount b c = 0 := by
      cases c with
      | element v =>
        have h : countEl (Call.element v :: cs) = countEl cs + 1 := by
          simp [countEl, List.countP_cons, Call.rank]
        simp only [dupCount]
        omega
      | id v =>
        have h : countId (Call.id v :: cs) = countId cs + 1 := by
          simp [countId, List.countP_cons, Call.rank]
        simp only [dupCount]
        omega
      | pseudoElement v =>
        have h : countPe (Call.pseudoElement v :: cs) = countPe cs + 1 := by
          simp [countPe, List.countP_cons, Call.rank]
        simp only [dupCount]
        omega
      | cls v => rfl
      | attr v => rfl
      | pseudoClass v => rfl
    have hord : jsIndexOf ORDER b.currentSelector ≤ (c.rank : Int) := hhd
    have hstep := applyCall_ok b c hdup hord
    have hranks2 : ranksOk cs = true := by
      cases cs with
      | nil => rfl
      | cons c1 cs1 =>
        simp only [ranksOk, Bool.and_eq_true] at hranks
        exact hranks.2
    have hhd2 : headRankOk (stepOk b c) cs := by
      cases cs with
      | nil => trivial
      | cons c1 cs1 =>
        simp only [ranksOk, Bool.and_eq_true, decide_eq_true_eq] at hranks
        show jsIndexOf ORDER (stepOk b c).currentSelector ≤ (c1.rank : Int)
        rw [stepOk_currentSelector, jsIndexOf_kindName]
        exact_mod_cast hranks.1
    have hel2 : countEl cs + (stepOk b c).elementCount ≤ 1 := by
      have h := countEl_cons c cs
      rw [stepOk_elementCount]
      by_cases hc : c.rank = 0 <;> simp [hc] at h <;> omega
    have hid2 : countId cs + (stepOk b c).idCount ≤ 1 := by
      have h := countId_cons c cs
      rw [stepOk_idCount]
      by_cases hc : c.rank = 1 <;> simp [hc] at h ⊢ <;> omega
    have hpe2 : countPe cs + (stepOk b c).pseudoElemCount ≤ 1 := by
      have h := countPe_cons c cs
      rw [stepOk_pseudoElemCount]
      by_cases hc : c.rank = 5 <;> simp [hc] at h ⊢ <;> omega
    obtain ⟨b1, h1, h2⟩ := ih (stepOk b c) hranks2 hhd2 hel2 hid2 hpe2
    refine ⟨b1, ?_, ?_⟩
    · simp only [runCalls, hstep]
      exact h1
    · rw [h2, stepOk_selectors, String.append_assoc]
      rfl


theorem entry_selectors (c : Call) : (entry c).selectors = c.render := by
  cases c <;> rfl

theorem entry_currentSelector (c : Call) : (entry c).currentSelector = c.kindName := by
  cases c <;> rfl

theorem entry_prevSelector (c : Call) : (entry c).prevSelector = none := by
  cases c <;> rfl

theorem entry_elementCount (c : Call) :
    (entry c).elementCount = (if c.rank = 0 then 1 else 0) := by
  cases c <;> rfl

theorem entry_idCount (c : Call) :
    (entry c).idCount = (if c.rank = 1 then 1 else 0) := by
  cases c <;> rfl

theorem entry_pseudoElemCount (c : Call) :
    (entry c).pseudoElemCount = (if c.rank = 5 then 1 else 0) := by
  cases c <;> rfl

/-- C1: for every sequence of append calls seeded by an entry point whose
kinds are non-decreasing in the canonical order, with element, id and
pseudoElement each occurring at most once counting the seed, every call
succeeds and `stringify()` returns the concatenation, in call order, of
the fragments' canonical renderings. -/
theorem C1_canonical_sequences_render (c : Call) (cs : List Call)
    (hranks : ranksOk (c :: cs) = true)
    (hel : countEl (c :: cs) ≤ 1)
    (hid : countId (c :: cs) ≤ 1)
    (hpe : countPe (c :: cs) ≤ 1) :
    ∃ b1, runCalls (entry c) cs = some b1 ∧ b1.stringify = renderAll (c :: cs) := by
  have h1 : ranksOk cs = true := by
    cases cs with
    | nil => rfl
    | cons c1 cs1 =>
      simp only [ranksOk, Bool.and_eq_true] at hranks
      exact hranks.2
  have hhd : headRankOk (entry c) cs := by
    cases cs with
    | nil => trivial
    | cons c1 cs1 =>
      simp only [ranksOk, Bool.and_eq_true, decide_eq_true_eq] at hranks
      show jsIndexOf ORDER (entry c).currentSelector ≤ (c1.rank : Int)
      rw [entry_currentSelector, jsIndexOf_kindName]
      exact_mod_cast hranks.1
  have hel2 : countEl cs + (entry c).elementCount ≤ 1 := by
    have h := countEl_cons c cs
    rw [entry_elementCount]
    by_cases hc : c.rank = 0 <;> simp [hc] at h ⊢ <;> omega
  have hid2 : countId cs + (entry c).idCount ≤ 1 := by
    have h := countId_cons c cs
    rw [entry_idCount]
    by_cases hc : c.rank = 1 <;> simp [hc] at h ⊢ <;> omega
  have hpe2 : countPe cs + (entry c).pseudoElemCount ≤ 1 := by
    have h := countPe_cons c cs
    rw [entry_pseudoElemCount]
    by_cases hc : c.rank = 5 <;> simp [hc] at h ⊢ <;> omega
  obtain ⟨b1, hrun, hsel⟩ := runCalls_total cs (entry c) h1 hhd hel2 hid2 hpe2
  refine ⟨b1, hrun, ?_⟩
  show b1.selectors = renderAll (c :: cs)
  rw [hsel, entry_selectors]
  rfl

/-- C1 witness: the seven-fragment chain
`element a # id main . c1 . c2 [x] :p ::after` satisfies every hypothesis
and renders to the expected concatenation. -/
theorem C1_witness :
    (ranksOk [Call.element "a", .id "main", .cls "c1", .cls "c2",
              .attr "x", .pseudoClass "p", .pseudoElement "after"] = true ∧
     countEl [Call.element "a", .id "main", .cls "c1", .cls "c2",
              .attr "x", .pseudoClass "p", .pseudoElement "after"] ≤ 1 ∧
     countId [Call.element "a", .id "main", .cls "c1", .cls "c2",
              .attr "x", .pseudoClass "p", .pseudoElement "after"] ≤ 1 ∧
     countPe [Call.element "a", .id "main", .cls "c1", .cls "c2",
              .attr "x", .pseudoClass "p", .pseudoElement "after"] ≤ 1) ∧
    ∃ b1, runCalls (entry (Call.element "a"))
            [.id "main", .cls "c1", .cls "c2", .attr "x", .pseudoClass "p",
             .pseudoElement "after"] = some b1 ∧
          b1.stringify = renderAll [Call.element "a", .id "main", .cls "c1", .cls "c2",
                                    .attr "x", .pseudoClass "p", .pseudoElement "after"] :=
  ⟨⟨by decide, by decide, by decide, by decide⟩,
   C1_canonical_sequences_render (Call.element "a")
     [.id "main", .cls "c1", .cls "c2", .attr "x", .pseudoClass "p", .pseudoElement "after"]
     (by decide) (by decide) (by decide) (by decide)⟩


/-- C2 counterexample: on the chain seeded by `element("a")`, the
`pseudoClass("h")` call succeeds, a subsequent `id("i")` call throws, and a
following `class("c")` call then succeeds even though the most recently
appended fragment is the pseudo-class, whose rank is strictly above the
rank of class — refuting the claim that such a call raises the
sequence-order error regardless of previously failed calls. -/
theorem C2_counterexample :
    isOk (pseudoClassM (cssSelectorBuilder.element "a") "h") = true ∧
    isErr (idM (after (pseudoClassM (cssSelectorBuilder.element "a") "h")) "i") = true ∧
    isOk (classM (after (idM (after (pseudoClassM (cssSelectorBuilder.element "a") "h"))
      "i")) "c") = true ∧
    (after (classM (after (idM (after (pseudoClassM (cssSelectorBuilder.element "a") "h"))
      "i")) "c")).selectors = "a:h.c" := by
  decide

/-- C2 (amended): the ordering check compares the appended kind against the
kind recorded in `currentSelector`, which reflects the most recent call that
passed its duplicate pre-check — not necessarily the most recently appended
fragment.  Whenever that recorded kind ranks strictly above the appended
kind and the call is not rejected by a duplicate pre-check, the call throws
the sequence-order error and the accumulated text is unchanged. -/
theorem C2_order_violation_throws (b : Builder) (c : Call)
    (hdup : dupCount b c = 0)
    (hord : (c.rank : Int) < jsIndexOf ORDER b.currentSelector) :
    ∃ b1, applyCall b c = .err (.sequenceOrder orderMsg) b1 ∧
          b1.selectors = b.selectors := by
  cases c with
  | element v =>
    have h0 : jsIndexOf ORDER "element" = (0 : Int) := by decide
    simp only [applyCall, elementM, jsIndexOfN, dupCount, Call.rank, Nat.cast_zero] at *
    rw [if_neg (by omega), if_pos (by omega)]
    exact ⟨_, rfl, rfl⟩
  | id v =>
    have h0 : jsIndexOf ORDER "id" = (1 : Int) := by decide
    simp only [applyCall, idM, jsIndexOfN, dupCount, Call.rank, Nat.cast_one] at *
    rw [if_neg (by omega), if_pos (by omega)]
    exact ⟨_, rfl, rfl⟩
  | cls v =>
    have h0 : jsIndexOf ORDER "class" = (2 : Int) := by decide
    simp only [applyCall, classM, jsIndexOfN, Call.rank] at *
    rw [if_pos (by omega)]
    exact ⟨_, rfl, rfl⟩
  | attr v =>
    have h0 : jsIndexOf ORDER "attribute" = (3 : Int) := by decide
    simp only [applyCall, attrM, jsIndexOfN, Call.rank] at *
    rw [if_pos (by omega)]
    exact ⟨_, rfl, rfl⟩
  | pseudoClass v =>
    have h0 : jsIndexOf ORDER "pseudoClass" = (4 : Int) := by decide
    simp only [applyCall, pseudoClassM, jsIndexOfN, Call.rank] at *
    rw [if_pos (by omega)]
    exact ⟨_, rfl, rfl⟩
  | pseudoElement v =>
    exfalso
    have h5 := jsIndexOf_ORDER_le b.currentSelector
    simp only [Call.rank] at hord
    omega

/-- C2 witness: appending `class` on the `pseudoClass("hover")` entry point
satisfies the hypotheses and throws the sequence-order error, leaving the
text unchanged. -/
theorem C2_order_violation_witness :
    (dupCount (cssSelectorBuilder.pseudoClass "hover") (Call.cls "x") = 0 ∧
     ((Call.cls "x").rank : Int) <
       jsIndexOf ORDER (cssSelectorBuilder.pseudoClass "hover").currentSelector) ∧
    ∃ b1, applyCall (cssSelectorBuilder.pseudoClass "hover") (Call.cls "x") =
            .err (.sequenceOrder orderMsg) b1 ∧
          b1.selectors = (cssSelectorBuilder.pseudoClass "hover").selectors :=
  ⟨⟨by decide, by decide⟩,
   C2_order_violation_throws (cssSelectorBuilder.pseudoClass "hover") (Call.cls "x")
     (by decide) (by decide)⟩

/-- C3: evaluation at the failing input.  The `element` method never
increments `elementCount`, so on the builder seeded by `id("x")` a first
`element("a")` call throws the ordering error (recording element as the
current kind), after which `element("b")` and then `element("c")` both
succeed: the second element append raises no duplicate error and the text
becomes `#xbc`, with `elementCount` still 0. -/
theorem C3_second_element_append_succeeds :
    isErr (elementM (cssSelectorBuilder.id "x") "a") = true ∧
    elementM (after (elementM (cssSelectorBuilder.id "x") "a")) "b" =
      .ok { selectors := "#xb", currentSelector := "element", prevSelector := some "element",
            elementCount := 0, idCount := 1, pseudoElemCount := 0 } ∧
    elementM { selectors := "#xb", currentSelector := "element", prevSelector := some "element",
               elementCount := 0, idCount := 1, pseudoElemCount := 0 } "c" =
      .ok { selectors := "#xbc", currentSelector := "element", prevSelector := some "element",
            elementCount := 0, idCount := 1, pseudoElemCount := 0 } := by
  decide

/-- C4: whenever a call on a capped kind is both a duplicate (its counter is
positive) and out of order (the recorded kind ranks strictly above it), the
duplicate error is raised, not the sequence-order error. -/
theorem C4_duplicate_beats_out_of_order (b : Builder) (c : Call)
    (hcap : c.isCapped = true)
    (hdup : 0 < dupCount b c)
    (hord : (c.rank : Int) < jsIndexOf ORDER b.currentSelector) :
    ∃ b1, applyCall b c = .err (.duplicateFragment dupMsg) b1 := by
  cases c with
  | element v =>
    simp only [applyCall, elementM, dupCount] at *
    rw [if_pos (by omega)]
    exact ⟨b, rfl⟩
  | id v =>
    simp only [applyCall, idM, dupCount] at *
    rw [if_pos (by omega)]
    exact ⟨b, rfl⟩
  | pseudoElement v =>
    exfalso
    have h5 := jsIndexOf_ORDER_le b.currentSelector
    simp only [Call.rank] at hord
    omega
  | cls v => simp [Call.isCapped] at hcap
  | attr v => simp [Call.isCapped] at hcap
  | pseudoClass v => simp [Call.isCapped] at hcap

/-- C4 witness: after `element("a").pseudoClass("h")`, a second `element`
call is both a duplicate and out of order, and the duplicate error wins. -/
theorem C4_duplicate_beats_out_of_order_witness :
    ((Call.element "b").isCapped = true ∧
     0 < dupCount (after (pseudoClassM (cssSelectorBuilder.element "a") "h"))
           (Call.element "b") ∧
     (((Call.element "b").rank : Int) <
       jsIndexOf ORDER
         (after (pseudoClassM (cssSelectorBuilder.element "a") "h")).currentSelector)) ∧
    ∃ b1, applyCall (after (pseudoClassM (cssSelectorBuilder.element "a") "h"))
            (Call.element "b") = .err (.duplicateFragment dupMsg) b1 :=
  ⟨⟨by decide, by decide, by decide⟩,
   C4_duplicate_beats_out_of_order
     (after (pseudoClassM (cssSelectorBuilder.element "a") "h")) (Call.element "b")
     (by decide) (by decide) (by decide)⟩


/-- C5 counterexample: the `id` call on the `pseudoClass("hover")` entry
point throws, yet the builder object the caller keeps holding is no longer
in its pre-call state: its `currentSelector` record was mutated before the
throw — refuting the claim that the entire state is exactly what it was
before a failed call. -/
theorem C5_counterexample :
    isErr (idM (cssSelectorBuilder.pseudoClass "hover") "i") = true ∧
    after (idM (cssSelectorBuilder.pseudoClass "hover") "i") ≠
      cssSelectorBuilder.pseudoClass "hover" := by
  decide

/-- C5 (amended): on every failed append the accumulated text and the three
occurrence counters are unchanged, but the kind records are not always
rolled back: the builder after the throw is either exactly the pre-call
state (duplicate rejections of `element` and `id`) or the pre-call state
with `prevSelector`/`currentSelector` updated to record the failed call's
kind (ordering failures, and duplicate rejections of `pseudoElement`). -/
theorem C5_failure_preserves_text_and_counts (b : Builder) (c : Call) (e : SelErr)
    (b1 : Builder) (h : applyCall b c = .err e b1) :
    b1.selectors = b.selectors ∧ b1.elementCount = b.elementCount ∧
    b1.idCount = b.idCount ∧ b1.pseudoElemCount = b.pseudoElemCount ∧
    (b1 = b ∨ b1 = { b with prevSelector := some b.currentSelector,
                            currentSelector := c.kindName }) := by
  cases c with
  | element v =>
    simp only [applyCall, elementM] at h
    split at h
    · obtain ⟨he, hb⟩ := CallResult.err.inj h
      subst hb
      exact ⟨rfl, rfl, rfl, rfl, Or.inl rfl⟩
    · split at h
      · obtain ⟨he, hb⟩ := CallResult.err.inj h
        subst hb
        exact ⟨rfl, rfl, rfl, rfl, Or.inr rfl⟩
      · exact CallResult.noConfusion h
  | id v =>
    simp only [applyCall, idM] at h
    split at h
    · obtain ⟨he, hb⟩ := CallResult.err.inj h
      subst hb
      exact ⟨rfl, rfl, rfl, rfl, Or.inl rfl⟩
    · split at h
      · obtain ⟨he, hb⟩ := CallResult.err.inj h
        subst hb
        exact ⟨rfl, rfl, rfl, rfl, Or.inr rfl⟩
      · exact CallResult.noConfusion h
  | cls v =>
    simp only [applyCall, classM] at h
    split at h
    · obtain ⟨he, hb⟩ := CallResult.err.inj h
      subst hb
      exact ⟨rfl, rfl, rfl, rfl, Or.inr rfl⟩
    · exact CallResult.noConfusion h
  | attr v =>
    simp only [applyCall, attrM] at h
    split at h
    · obtain ⟨he, hb⟩ := CallResult.err.inj h
      subst hb
      exact ⟨rfl, rfl, rfl, rfl, Or.inr rfl⟩
    · exact CallResult.noConfusion h
  | pseudoClass v =>
    simp only [applyCall, pseudoClassM] at h
    split at h
    · obtain ⟨he, hb⟩ := CallResult.err.inj h
      subst hb
      exact ⟨rfl, rfl, rfl, rfl, Or.inr rfl⟩
    · exact CallResult.noConfusion h
  | pseudoElement v =>
    simp only [applyCall, pseudoElementM] at h
    split at h
    · obtain ⟨he, hb⟩ := CallResult.err.inj h
      subst hb
      exact ⟨rfl, rfl, rfl, rfl, Or.inr rfl⟩
    · split at h
      · obtain ⟨he, hb⟩ := CallResult.err.inj h
        subst hb
        exact ⟨rfl, rfl, rfl, rfl, Or.inr rfl⟩
      · exact CallResult.noConfusion h

/-- C5 witness: at the concrete failed call of the counterexample, the text
and counters are preserved as the amended claim states. -/
theorem C5_failure_preserves_witness :
    (applyCall (cssSelectorBuilder.pseudoClass "hover") (Call.id "i") =
      .err (.sequenceOrder orderMsg)
        { selectors := ":hover", currentSelector := "id",
          prevSelector := some "pseudoClass", elementCount := 0, idCount := 0,
          pseudoElemCount := 0 }) ∧
    ({ selectors := ":hover", currentSelector := "id",
       prevSelector := some "pseudoClass", elementCount := 0, idCount := 0,
       pseudoElemCount := 0 : Builder }.selectors =
         (cssSelectorBuilder.pseudoClass "hover").selectors ∧
     ({ selectors := ":hover", currentSelector := "id",
        prevSelector := some "pseudoClass", elementCount := 0, idCount := 0,
        pseudoElemCount := 0 : Builder }).elementCount =
         (cssSelectorBuilder.pseudoClass "hover").elementCount ∧
     ({ selectors := ":hover", currentSelector := "id",
        prevSelector := some "pseudoClass", elementCount := 0, idCount := 0,
        pseudoElemCount := 0 : Builder }).idCount =
         (cssSelectorBuilder.pseudoClass "hover").idCount ∧
     ({ selectors := ":hover", currentSelector := "id",
        prevSelector := some "pseudoClass", elementCount := 0, idCount := 0,
        pseudoElemCount := 0 : Builder }).pseudoElemCount =
         (cssSelectorBuilder.pseudoClass "hover").pseudoElemCount ∧
     ({ selectors := ":hover", currentSelector := "id",
        prevSelector := some "pseudoClass", elementCount := 0, idCount := 0,
        pseudoElemCount := 0 : Builder } = cssSelectorBuilder.pseudoClass "hover" ∨
      { selectors := ":hover", currentSelector := "id",
        prevSelector := some "pseudoClass", elementCount := 0, idCount := 0,
        pseudoElemCount := 0 : Builder } =
        { cssSelectorBuilder.pseudoClass "hover" with
            prevSelector := some (cssSelectorBuilder.pseudoClass "hover").currentSelector,
            currentSelector := (Call.id "i").kindName })) :=
  ⟨by decide,
   C5_failure_preserves_text_and_counts (cssSelectorBuilder.pseudoClass "hover")
     (Call.id "i") (.sequenceOrder orderMsg) _ (by decide)⟩

/-- C6 counterexample: a concrete duplicate rejection carries the message
with the source's wording "more then one time" and no trailing period, so
it differs from the message the claim states. -/
theorem C6_counterexample :
    idM (cssSelectorBuilder.id "a") "b" =
      .err (.duplicateFragment dupMsg) (cssSelectorBuilder.id "a") ∧
    dupMsg ≠
      "Element, id and pseudo-element should not occur more than one time inside the selector." := by
  decide

/-- C6 (amended): every duplicate-fragment error raised by an append call
carries exactly the source's fixed message "Element, id and pseudo-element
should not occur more then one time inside the selector". -/
theorem C6_duplicate_message_fixed (b : Builder) (c : Call) (m : String) (b1 : Builder)
    (h : applyCall b c = .err (.duplicateFragment m) b1) :
    m = dupMsg := by
  cases c <;>
    simp only [applyCall, elementM, idM, classM, attrM, pseudoClassM, pseudoElementM] at h <;>
    repeat' split at h
  all_goals
    first
      | exact CallResult.noConfusion h
      | (obtain ⟨he, hb⟩ := CallResult.err.inj h
         first
           | exact (SelErr.duplicateFragment.inj he).symm
           | exact SelErr.noConfusion he)

/-- C6 witness: the duplicate error of the counterexample call indeed
carries the fixed message. -/
theorem C6_duplicate_message_witness :
    (idM (cssSelectorBuilder.id "a") "b" =
      .err (.duplicateFragment dupMsg) (cssSelectorBuilder.id "a")) ∧ dupMsg = dupMsg :=
  ⟨by decide,
   C6_duplicate_message_fixed (cssSelectorBuilder.id "a") (Call.id "b") dupMsg
     (cssSelectorBuilder.id "a") (by decide)⟩

/-- C7 counterexample: a concrete out-of-order rejection carries the
source's message, which has no trailing period, so it differs from the
message the claim states. -/
theorem C7_counterexample :
    classM (cssSelectorBuilder.pseudoClass "h") "c" =
      .err (.sequenceOrder orderMsg)
        { selectors := ":h", currentSelector := "class",
          prevSelector := some "pseudoClass", elementCount := 0, idCount := 0,
          pseudoElemCount := 0 } ∧
    orderMsg ≠
      "Selector parts should be arranged in the following order: element, id, class, attribute, pseudo-class, pseudo-element." := by
  decide

/-- C7 (amended): every sequence-order error raised by an append call
carries exactly the source's fixed message "Selector parts should be
arranged in the following order: element, id, class, attribute,
pseudo-class, pseudo-element" (no trailing period). -/
theorem C7_order_message_fixed (b : Builder) (c : Call) (m : String) (b1 : Builder)
    (h : applyCall b c = .err (.sequenceOrder m) b1) :
    m = orderMsg := by
  cases c <;>
    simp only [applyCall, elementM, idM, classM, attrM, pseudoClassM, pseudoElementM] at h <;>
    repeat' split at h
  all_goals
    first
      | exact CallResult.noConfusion h
      | (obtain ⟨he, hb⟩ := CallResult.err.inj h
         first
           | exact (SelErr.sequenceOrder.inj he).symm
           | exact SelErr.noConfusion he)

/-- C7 witness: the sequence-order error of the counterexample call indeed
carries the fixed message. -/
theorem C7_order_message_witness :
    (classM (cssSelectorBuilder.pseudoClass "h") "c" =
      .err (.sequenceOrder orderMsg)
        { selectors := ":h", currentSelector := "class",
          prevSelector := some "pseudoClass", elementCount := 0, idCount := 0,
          pseudoElemCount := 0 }) ∧ orderMsg = orderMsg :=
  ⟨by decide,
   C7_order_message_fixed (cssSelectorBuilder.pseudoClass "h") (Call.cls "c") orderMsg
     { selectors := ":h", currentSelector := "class",
       prevSelector := some "pseudoClass", elementCount := 0, idCount := 0,
       pseudoElemCount := 0 } (by decide)⟩

/-- C8: `combine` never fails (it is total), its result's `stringify` is
the eager concatenation of the operands' renderings with exactly one space
on each side of the token, for any token string, and — since the operands
range over all selector values, combined ones included — this composes to
arbitrary nesting depth. -/
theorem C8_combine_renders (s1 s2 s3 : Selector) (t u : String) :
    (combine s1 t s2).stringify = s1.stringify ++ " " ++ t ++ " " ++ s2.stringify ∧
    (combine (combine s1 t s2) u s3).stringify =
      (s1.stringify ++ " " ++ t ++ " " ++ s2.stringify) ++ " " ++ u ++ " " ++ s3.stringify :=
  ⟨rfl, rfl⟩

/-- C9: every entry point returns a fresh builder seeded with exactly one
fragment of the corresponding kind: its text is the seed's rendering, its
current kind record is the seed's kind, no previous kind is recorded, the
capped-kind counters are set exactly for the seed's kind, and `stringify`
with no further appends returns exactly the seed's rendering. -/
theorem C9_entry_points_seed (c : Call) :
    (entry c).selectors = c.render ∧
    (entry c).currentSelector = c.kindName ∧
    (entry c).prevSelector = none ∧
    (entry c).elementCount = (if c.rank = 0 then 1 else 0) ∧
    (entry c).idCount = (if c.rank = 1 then 1 else 0) ∧
    (entry c).pseudoElemCount = (if c.rank = 5 then 1 else 0) ∧
    (entry c).stringify = c.render :=
  ⟨entry_selectors c, entry_currentSelector c, entry_prevSelector c,
   entry_elementCount c, entry_idCount c, entry_pseudoElemCount c, entry_selectors c⟩

/-- C10: `Rectangle(width, height)` yields an object whose `width` and
`height` fields are the given numbers and whose `getArea()` returns their
product. -/
theorem C10_rectangle_fields_and_area (width height : Int) :
    (Rectangle width height).width = width ∧
    (Rectangle width height).height = height ∧
    (Rectangle width height).getArea = width * height :=
  ⟨rfl, rfl, rfl⟩

end ObjectsTasks
